import Mathlib

/-!
Verification development for the Grasshopper BACnet topology scanner
(`Grasshopper/grasshopper/rdf_components.py`, `bacpypes3_scanner.py`,
`api.py`).  The Python code is shallowly embedded: rdflib graphs become
lists of triples with set semantics (`Graph.add` is a no-op on a triple
already present, exactly as in rdflib), Python dictionaries become
functions `Nat → Option Nat`, and the async probe paths become explicit
state passing driven by an `Outcome` oracle.
-/

namespace Grasshopper

/-- An RDF term: a URI reference, a string literal, or an integer literal
(`rdflib.URIRef` / `rdflib.Literal`).  Literals of different Python types
are distinct rdflib terms, hence the separate constructors. -/
inductive RDFTerm where
  | uri (s : String)
  | litStr (s : String)
  | litNat (n : Nat)
deriving DecidableEq, Repr

/-- A triple (subject, predicate object).  Predicates are URIRefs; we carry
their full IRI string (`str(predicate)` in Python). -/
abbrev Triple := RDFTerm × String × RDFTerm

/-- An rdflib `Graph` is a set of triples; we embed it as a duplicate-free
list in insertion order. -/
abbrev Graph := List Triple

/-- `Graph.add`: rdflib `Graph.add` inserts a triple; a triple already in
the store is not duplicated (rdflib graphs are sets of triples). -/
def Graph.add (g : Graph) (t : Triple) : Graph :=
  if t ∈ g then g else g ++ [t]

/-- `Graph.set`: rdflib `Graph.set((s, p, o))` removes every triple with
subject `s` and predicate `p`, then adds `(s, p, o)`. -/
def Graph.set (g : Graph) (s : RDFTerm) (p : String) (o : RDFTerm) : Graph :=
  Graph.add (g.filter fun t => !(t.1 == s && t.2.1 == p)) (s, p, o)

/-- The `bacpypes3.rdf.core.BACnetNS` namespace
(`http://data.ashrae.org/bacnet/2020#`), as pinned by the repo test
`tests/rdf/test_rdf_components.py`. -/
def bacnetNS (s : String) : String :=
  "http://data.ashrae.org/bacnet/2020#" ++ s

/-- `BACnetNS[x]` as an RDF term (for type objects like `BACnetNS.Device`). -/
def bacnetNSterm (s : String) : RDFTerm := .uri (bacnetNS s)

/-- `bacpypes3.rdf.core.BACnetURI["//x"]`, i.e. the URIRef `bacnet://x`. -/
def bacnetURI (s : String) : RDFTerm := .uri ("bacnet://" ++ s)

/-- `str(RDF.type)`. -/
def rdfType : String := "http://www.w3.org/1999/02/22-rdf-syntax-ns#type"

/-- `str(RDFS.label)`. -/
def rdfsLabel : String := "http://www.w3.org/2000/01/rdf-schema#label"

/-- `BACnetEdgeType` (`rdf_components.py`): the edge kinds between BACnet
entities. -/
inductive BACnetEdgeType where
  | bbmdBroadcastDomain
  | bacnetRouterOnSubnet
  | deviceOnSubnet
  | deviceOnNetwork
  | routerForSubnet
  | bdtEntry
  | fdrEntry
deriving DecidableEq, Repr

/-- The `value` of each `BACnetEdgeType` member. -/
def BACnetEdgeType.value : BACnetEdgeType → String
  | .bbmdBroadcastDomain => "bbmd-broadcast-domain"
  | .bacnetRouterOnSubnet => "bacnet-router-on-subnet"
  | .deviceOnSubnet => "device-on-subnet"
  | .deviceOnNetwork => "device-on-network"
  | .routerForSubnet => "router-for-subnet"
  | .bdtEntry => "bdt-entry"
  | .fdrEntry => "fdr-entry"

/-- `BACnetEdgeType._value2member_map_.keys()`: the bare enum value
strings. -/
def edgeTypeValues : List String :=
  ["bbmd-broadcast-domain", "bacnet-router-on-subnet", "device-on-subnet",
   "device-on-network", "router-for-subnet", "bdt-entry", "fdr-entry"]

/-- `BaseNode.overwrite_triple` (`rdf_components.py:158-176`): if
`str(predicate)` is one of the bare `BACnetEdgeType` values it calls
`graph.set`, otherwise `graph.add`.  Note that `str(predicate)` is always
a full IRI (namespace prefix + local name). -/
def overwriteTriple (g : Graph) (nodeIri : RDFTerm) (pred : String)
    (newObject : RDFTerm) : Graph :=
  if pred ∈ edgeTypeValues then
    Graph.set g nodeIri pred newObject
  else
    Graph.add g (nodeIri, pred, newObject)

/-- Properties passed to `add_properties` by keyword.  `none` models an
absent keyword argument.  Python truthiness on the present values is
applied at the use sites, mirroring each `if value:` guard. -/
structure Props where
  label : Option String := none
  device_identifier : Option Nat := none
  device_address : Option String := none
  vendor_id : Option Nat := none
  subnet : Option String := none
  network_id : Option Nat := none
  device_iri : Option RDFTerm := none
deriving Repr

/-- The component list of a `BACnetNode`
(`SubnetComponent` / `NetworkComponent` / `AttachDeviceComponent`),
each holding its `BACnetEdgeType`. -/
inductive Component where
  | subnetC (e : BACnetEdgeType)
  | networkC (e : BACnetEdgeType)
  | attachDeviceC (e : BACnetEdgeType)
deriving DecidableEq, Repr

/-- `Component.add_properties` (`rdf_components.py:229-258`): each
component reads its keyword from `kwargs` and, when truthy, writes one
edge triple through `overwrite_triple`.  `NetworkComponent`'s guard
`if network_id:` is false for `0`; a subnet object is always truthy. -/
def Component.addProps (c : Component) (nodeIri : RDFTerm) (p : Props)
    (g : Graph) : Graph :=
  match c with
  | .subnetC e =>
      match p.subnet with
      | some s =>
          overwriteTriple g nodeIri (bacnetNS e.value)
            (bacnetURI ("subnet/" ++ s))
      | none => g
  | .networkC e =>
      match p.network_id with
      | some n =>
          if n ≠ 0 then
            overwriteTriple g nodeIri (bacnetNS e.value)
              (bacnetURI ("network/" ++ toString n))
          else g
      | none => g
  | .attachDeviceC e =>
      match p.device_iri with
      | some iri => overwriteTriple g nodeIri (bacnetNS e.value) iri
      | none => g

/-- `BaseNode.add_properties` (`rdf_components.py:188-200`): writes the
`rdfs:label` when the label is truthy. -/
def baseAddProps (nodeIri : RDFTerm) (p : Props) (g : Graph) : Graph :=
  match p.label with
  | some s => if s ≠ "" then overwriteTriple g nodeIri rdfsLabel (.litStr s) else g
  | none => g

/-- `BACnetNode.add_properties` (`rdf_components.py:275-297`): label, then
device-instance, address and vendor-id guarded by Python truthiness, then
every component in order. -/
def bacnetNodeAddProps (components : List Component) (nodeIri : RDFTerm)
    (p : Props) (g : Graph) : Graph :=
  let g1 := baseAddProps nodeIri p g
  let g2 := match p.device_identifier with
    | some n =>
        if n ≠ 0 then
          overwriteTriple g1 nodeIri (bacnetNS "device-instance") (.litNat n)
        else g1
    | none => g1
  let g3 := match p.device_address with
    | some s =>
        if s ≠ "" then
          overwriteTriple g2 nodeIri (bacnetNS "address") (.litStr s)
        else g2
    | none => g2
  let g4 := match p.vendor_id with
    | some n =>
        if n ≠ 0 then
          overwriteTriple g3 nodeIri (bacnetNS "vendor-id")
            (bacnetURI ("vendor/" ++ toString n))
        else g3
    | none => g3
  components.foldl (fun g c => c.addProps nodeIri p g) g4

/-- `DeviceNode`'s component list (`rdf_components.py:313-321`). -/
def deviceNodeComponents : List Component :=
  [.networkC .deviceOnNetwork, .subnetC .deviceOnSubnet]

/-- `RouterNode`'s component list (`rdf_components.py:324-332`). -/
def routerNodeComponents : List Component :=
  [.networkC .deviceOnNetwork, .subnetC .deviceOnSubnet]

/-- `BBMDNode`'s component list (`rdf_components.py:300-310`). -/
def bbmdNodeComponents : List Component :=
  [.attachDeviceC .bdtEntry, .subnetC .bbmdBroadcastDomain]

/-- Constructing a `BACnetNode` writes its RDF type twice (once for the
node itself and once for the inner `self.device` BaseNode). -/
def bacnetNodeInit (nodeIri : RDFTerm) (typeName : String) (g : Graph) :
    Graph :=
  let g1 := overwriteTriple g nodeIri rdfType (bacnetNSterm typeName)
  overwriteTriple g1 nodeIri rdfType (bacnetNSterm typeName)

/-! ### Adaptive device discovery (`bacpypes3_scanner.get_device_objects`) -/

/-- `any(graph.triples((BACnetURI["//" + str(current_pos)], None, None)))`:
whether the prior-scan graph holds any triple whose subject is the device
IRI for instance number `pos`. -/
def hasNodeAt (g : Graph) (pos : Nat) : Bool :=
  g.any fun t => t.1 == bacnetURI (toString pos)

/-- The `while current_pos < end_pos` loop of `get_known_device_end_range`
(`bacpypes3_scanner.py:518-542`), expressed as the offset of the returned
position from `current`; `remaining = end_pos - current_pos`. -/
def knownEndOffset (g : Graph) (fullStep track current remaining : Nat) :
    Nat :=
  match remaining with
  | 0 => 0
  | r + 1 =>
      let t := if hasNodeAt g current then track + 1 else track
      if fullStep ≤ t then 0
      else 1 + knownEndOffset g fullStep t (current + 1) r

/-- `get_known_device_end_range(graph, start_pos)`: walk at most
`empty_step_size` positions, truncating as soon as `full_step_size` known
devices have been counted. -/
def getKnownDeviceEndRange (g : Graph) (emptyStep fullStep startPos : Nat) :
    Nat :=
  startPos + knownEndOffset g fullStep 0 startPos emptyStep

/-- Number of instance ids in `[c, c + r)` at which the prior graph has a
node (the quantity `get_known_device_end_range` counts). -/
def cntDev (g : Graph) : Nat → Nat → Nat
  | _, 0 => 0
  | c, r + 1 => (if hasNodeAt g c then 1 else 0) + cntDev g (c + 1) r

/-- The Who-Is windows issued by the `while track_lower <= self.high_limit`
loop of `get_device_objects` (`bacpypes3_scanner.py:544-604`): each window
is `(track_lower, track_upper)` with `track_upper` clamped to the high
limit, and the next window starts at `track_upper + 1` (also on a
transport error, whose handler runs the same advance).  The loop advances
`track_lower` by at least one per iteration, so running it with an
iteration budget of `high + 1 - lower` is exact; `windowsAux_budget_le`
below proves any budget at least that large gives the same windows. -/
def windowsAux (g : Graph) (emptyStep fullStep high : Nat) :
    Nat → Nat → List (Nat × Nat)
  | _, 0 => []
  | lower, fuel + 1 =>
    if lower ≤ high then
      (lower, min (getKnownDeviceEndRange g emptyStep fullStep lower) high) ::
        windowsAux g emptyStep fullStep high
          (min (getKnownDeviceEndRange g emptyStep fullStep lower) high + 1) fuel
    else []

/-- All Who-Is windows of one scan over `[low, high]`. -/
def scanWindows (g : Graph) (emptyStep fullStep low high : Nat) :
    List (Nat × Nat) :=
  windowsAux g emptyStep fullStep high low (high + 1 - low)

/-- `tilesB low high ws` holds when the closed windows in `ws` tile the
range `[low, high]` exactly: the first starts at `low`, each window is
nonempty and within bounds, each next window starts one past the previous
window's end, and the final end is `high`. -/
def tilesB : Nat → Nat → List (Nat × Nat) → Bool
  | low, high, [] => low == high + 1
  | low, high, (l, u) :: ws => l == low && low ≤ u && u ≤ high && tilesB (u + 1) high ws

/-! ### Subnet association (`bacpypes3_scanner.add_subnet_to_device`) -/

/-- An IPv4 network: `(network address, prefix length)`, with the address
a `Nat` below `2^32`. -/
abbrev Subnet := Nat × Nat

/-- `ip in subnet` for `ipaddress` objects: the top `prefixlen` bits agree. -/
def ipInSubnet (ip : Nat) (s : Subnet) : Bool :=
  ip / 2 ^ (32 - s.2) == s.1 / 2 ^ (32 - s.2)

/-- `ipaddress.ip_network(f"{ip}/24", strict=False)`: the /24 network
containing `ip` (host bits cleared). -/
def synth24 (ip : Nat) : Subnet := (ip / 256 * 256, 24)

/-- Dotted-quad rendering of an IPv4 address. -/
def ipStr (n : Nat) : String :=
  toString (n / 16777216 % 256) ++ "." ++ toString (n / 65536 % 256) ++ "."
    ++ toString (n / 256 % 256) ++ "." ++ toString (n % 256)

/-- `str(subnet)` in CIDR form. -/
def subnetStr (s : Subnet) : String := ipStr s.1 ++ "/" ++ toString s.2

/-- `add_subnet_to_device` (`bacpypes3_scanner.py:460-490`): find the first
subnet of `self.subnets` containing `ip` (the loop breaks on the first
match); otherwise synthesize a /24, attach it and append it to the list.
Returns the resolved subnet, the updated graph, and the updated list. -/
def addSubnetToDevice (comps : List Component) (deviceIri : RDFTerm)
    (g : Graph) (subnets : List Subnet) (ip : Nat) :
    Subnet × Graph × List Subnet :=
  match subnets.find? (fun s => ipInSubnet ip s) with
  | some s =>
      (s, bacnetNodeAddProps comps deviceIri { subnet := some (subnetStr s) } g,
       subnets)
  | none =>
      let s := synth24 ip
      (s, bacnetNodeAddProps comps deviceIri { subnet := some (subnetStr s) } g,
       subnets ++ [s])

/-! ### Router discovery (`bacpypes3_scanner.get_router_networks`) -/

/-- Processing of one `I-Am-Router-To-Network` response inside
`get_router_networks` (`bacpypes3_scanner.py:381-398`): build the
`RouterNode`, record one `device-on-network` relation per announced
network, attach the router to every matching configured subnet (this loop
has no break), and when no subnet matched call
`scanner_node.add_properties(device_iri=router_iri)`. -/
def routerStep (subnets : List Subnet) (scannerIri : RDFTerm)
    (routerAddrStr : String) (routerIp : Nat) (nets : List Nat) (g : Graph) :
    Graph :=
  let routerIri := bacnetURI ("router/" ++ routerAddrStr)
  let g1 := bacnetNodeInit routerIri "Router" g
  let g2 := nets.foldl
    (fun g net =>
      bacnetNodeAddProps routerNodeComponents routerIri
        { network_id := some net } g) g1
  let g3 := subnets.foldl
    (fun g s =>
      if ipInSubnet routerIp s then
        bacnetNodeAddProps routerNodeComponents routerIri
          { subnet := some (subnetStr s) } g
      else g) g2
  if subnets.all (fun s => !ipInSubnet routerIp s) then
    bacnetNodeAddProps deviceNodeComponents scannerIri
      { device_iri := some routerIri } g3
  else g3

/-! ### BDT/FDT probe correlation (`BVLLServiceElement`) -/

/-- A pending-request registry (`read_bdt_future` / `read_fdt_future`):
a Python dict from destination address to its result future, embedded as
a map from address (as `Nat`) to the registered slot. -/
abbrev Registry := Nat → Option Nat

/-- `registry[destination] = future`. -/
def regSet (r : Registry) (k v : Nat) : Registry :=
  fun x => if x = k then some v else r x

/-- `del registry[destination]`. -/
def regDel (r : Registry) (k : Nat) : Registry :=
  fun x => if x = k then none else r x

/-- How one correlated probe completes: a confirmation carrying a value,
a timeout, or any other error. -/
inductive Outcome where
  | success (v : Nat)
  | timeout
  | error
deriving DecidableEq, Repr

/-- `BVLLServiceElement.create_and_await_request`
(`bacpypes3_scanner.py:114-157`): register the result future under the
destination, send the request, then await.  On success the
`confirmation` handler (`:74-92`) resolves the future and deletes the
registry entry; on timeout or any error the call returns `None`.  The
`finally` block deletes the destination's entry when it is still
present.  Returns the result and the final registry. -/
def createAndAwaitRequest (r : Registry) (dest slot : Nat) (o : Outcome) :
    Option Nat × Registry :=
  let r1 := regSet r dest slot
  match o with
  | .success v =>
      let r2 := regDel r1 dest
      (some v, if (r2 dest).isSome then regDel r2 dest else r2)
  | .timeout => (none, if (r1 dest).isSome then regDel r1 dest else r1)
  | .error => (none, if (r1 dest).isSome then regDel r1 dest else r1)

/-- The BVLL request classes sent by the probe helpers. -/
inductive RequestKind where
  | readBroadcastDistributionTable
  | readForeignDeviceTable
deriving DecidableEq, Repr

/-- The two future registries of a `BVLLServiceElement`. -/
structure BVLLState where
  readBdtFuture : Registry
  readFdtFuture : Registry

/-- `BVLLServiceElement.read_broadcast_distribution_table`
(`bacpypes3_scanner.py:159-175`): send `ReadBroadcastDistributionTable`
through `create_and_await_request` against the BDT registry.  The first
component records which request class was sent. -/
def readBdtTable (st : BVLLState) (dest slot : Nat) (o : Outcome) :
    RequestKind × Option Nat × BVLLState :=
  let (res, r) := createAndAwaitRequest st.readBdtFuture dest slot o
  (.readBroadcastDistributionTable, res, { st with readBdtFuture := r })

/-- `BVLLServiceElement.read_foreign_device_table`
(`bacpypes3_scanner.py:177-193`): send `ReadForeignDeviceTable` against
the FDT registry. -/
def readFdtTable (st : BVLLState) (dest slot : Nat) (o : Outcome) :
    RequestKind × Option Nat × BVLLState :=
  let (res, r) := createAndAwaitRequest st.readFdtFuture dest slot o
  (.readForeignDeviceTable, res, { st with readFdtFuture := r })

/-- `bacpypes3_scanner.read_bbmd_fdt` (`bacpypes3_scanner.py:435-458`):
`fdt = await ase.read_broadcast_distribution_table(device_address)`, and
when the result is not `None`, `self.scanned_bbmds_fdt[device_address] =
fdt`; any exception is swallowed.  Returns the request kind that was
sent, the updated `scanned_bbmds_fdt` store, and the element state. -/
def readBbmdFdt (st : BVLLState) (fdtStore : Registry) (dest slot : Nat)
    (o : Outcome) : RequestKind × Registry × BVLLState :=
  let (k, res, st1) := readBdtTable st dest slot o
  match res with
  | some v => (k, regSet fdtStore dest v, st1)
  | none => (k, fdtStore, st1)

/-! ### Snapshot-diff worker (`api.process_compare_rdf_queue`) -/

/-- What the worker finds when it turns a task's filename into a graph:
the file is absent, it exists but fails to parse, or it parses. -/
inductive FileState where
  | missing
  | unparsable
  | parsed (g : Graph)

/-- One queued comparison task (`ttl_1`, `ttl_2`). -/
structure DiffTask where
  ttl1 : String
  ttl2 : String

/-- The filesystem the worker reads from. -/
structure DiffEnv where
  files : String → FileState

/-- `rdflib.compare.graph_diff` on canonicalized graphs, for graphs
without blank nodes: `(in_both, in_first, in_second)`. -/
def graphDiff (a b : Graph) : Graph × Graph × Graph :=
  (a.filter (fun t => decide (t ∈ b)),
   a.filter (fun t => decide (t ∉ b)),
   b.filter (fun t => decide (t ∉ a)))

/-- Python string rendering of an RDF term (as interpolated into the
`triple_id` literal). -/
def termStr : RDFTerm → String
  | .uri s => s
  | .litStr s => s
  | .litNat n => toString n

/-- `Literal(f"{s} {p} {o}")`. -/
def tripleIdStr (t : Triple) : String :=
  termStr t.1 ++ " " ++ t.2.1 ++ " " ++ termStr t.2.2

/-- The combined graph built by `process_compare_rdf_queue`
(`api.py:121-153`): triples unique to either input carry an
`rdf_diff_source` provenance entry naming their snapshot, and shared
triples are added as-is. -/
def combinedGraph (g1 g2 : Graph) (name1 name2 : String) : Graph :=
  let d := graphDiff g1 g2
  let ga := d.2.1.foldl
    (fun g t =>
      Graph.add (Graph.add g t)
        (.litStr (tripleIdStr t), bacnetNS "rdf_diff_source", .litStr name1))
    ([] : Graph)
  let gb := d.2.2.foldl
    (fun g t =>
      Graph.add (Graph.add g t)
        (.litStr (tripleIdStr t), bacnetNS "rdf_diff_source", .litStr name2))
    ga
  d.1.foldl (fun g t => Graph.add g t) gb

/-- The body of one iteration of `process_compare_rdf_queue`
(`api.py:96-164`): check that both files exist (`FileNotFoundError`
otherwise), parse both (a parse failure raises), then build the combined
graph.  Every raised exception is caught by the surrounding
`except Exception` and surfaces here as `Except.error`. -/
def processOneTask (env : DiffEnv) (t : DiffTask) : Except String Graph :=
  match env.files t.ttl1, env.files t.ttl2 with
  | .missing, _ =>
      .error ("The file " ++ t.ttl1 ++ " does not exist in the current directory.")
  | _, .missing =>
      .error ("The file " ++ t.ttl2 ++ " does not exist in the current directory.")
  | .unparsable, _ => .error ("Failed to parse " ++ t.ttl1)
  | _, .unparsable => .error ("Failed to parse " ++ t.ttl2)
  | .parsed g1, .parsed g2 => .ok (combinedGraph g1 g2 t.ttl1 t.ttl2)

/-- The `while True` worker loop: take tasks until the `None` sentinel;
a task whose processing raises is logged and skipped, and the loop moves
on to the next task.  The result records each processed task's outcome. -/
def processCompareRdfQueue (env : DiffEnv) :
    List (Option DiffTask) → List (DiffTask × Except String Graph)
  | [] => []
  | none :: _ => []
  | some t :: rest =>
      (t, processOneTask env t) :: processCompareRdfQueue env rest

/-! ### The concrete relation writes the scanner performs -/

/-- The `device-on-network` triple written by `NetworkComponent` for
network number `n`. -/
def devOnNetworkTriple (iri : RDFTerm) (n : Nat) : Triple :=
  (iri, bacnetNS "device-on-network", bacnetURI ("network/" ++ toString n))

/-- The `device-on-subnet` triple written by `SubnetComponent` for subnet
string `s`. -/
def devOnSubnetTriple (iri : RDFTerm) (s : String) : Triple :=
  (iri, bacnetNS "device-on-subnet", bacnetURI ("subnet/" ++ s))

/-- The `bdt-entry` triple written by `AttachDeviceComponent`. -/
def bdtEntryTriple (iri target : RDFTerm) : Triple :=
  (iri, bacnetNS "bdt-entry", target)

/-- The `bbmd-broadcast-domain` triple written by `SubnetComponent` on a
BBMD node. -/
def bbmdDomainTriple (iri : RDFTerm) (s : String) : Triple :=
  (iri, bacnetNS "bbmd-broadcast-domain", bacnetURI ("subnet/" ++ s))

/-- `device.add_properties(network_id=n)` on a Device/Router node
(`get_device_objects` fallback path, `get_router_networks` loop). -/
def writeDeviceNetwork (iri : RDFTerm) (n : Nat) (g : Graph) : Graph :=
  bacnetNodeAddProps deviceNodeComponents iri { network_id := some n } g

/-- `device.add_properties(subnet=s)` on a Device/Router node
(`add_subnet_to_device`). -/
def writeDeviceSubnet (iri : RDFTerm) (s : String) (g : Graph) : Graph :=
  bacnetNodeAddProps deviceNodeComponents iri { subnet := some s } g

/-- `bbmd.add_properties(device_iri=t)` on a BBMD node
(`set_subnet_network` BDT resolution). -/
def writeBdtEntry (iri target : RDFTerm) (g : Graph) : Graph :=
  bacnetNodeAddProps bbmdNodeComponents iri { device_iri := some target } g

/-- `bbmd.add_properties(subnet=s)` on a BBMD node
(`add_subnet_to_device` for a BBMD). -/
def writeBbmdSubnet (iri : RDFTerm) (s : String) (g : Graph) : Graph :=
  bacnetNodeAddProps bbmdNodeComponents iri { subnet := some s } g

/-! ## Basic graph lemmas -/

theorem Graph.mem_add_self (g : Graph) (t : Triple) : t ∈ Graph.add g t := by
  unfold Graph.add
  split
  · assumption
  · simp

theorem Graph.mem_add_of_mem {g : Graph} {u : Triple} (t : Triple)
    (h : u ∈ g) : u ∈ Graph.add g t := by
  unfold Graph.add
  split
  · exact h
  · exact List.mem_append_left _ h

theorem Graph.add_of_mem {g : Graph} {t : Triple} (h : t ∈ g) :
    Graph.add g t = g := by
  simp [Graph.add, h]

theorem Graph.mem_add_iff {g : Graph} {t u : Triple} :
    u ∈ Graph.add g t ↔ u ∈ g ∨ u = t := by
  unfold Graph.add
  split
  · rename_i h
    constructor
    · exact Or.inl
    · rintro (hu | rfl)
      · exact hu
      · exact h
  · simp [List.mem_append]

theorem overwriteTriple_eq_add {pred : String} (h : pred ∉ edgeTypeValues)
    (g : Graph) (iri obj : RDFTerm) :
    overwriteTriple g iri pred obj = Graph.add g (iri, pred, obj) := by
  simp [overwriteTriple, h]

theorem mem_overwriteTriple_elim {g : Graph} {iri obj : RDFTerm}
    {pred : String} {t : Triple} (h : t ∈ overwriteTriple g iri pred obj) :
    t ∈ g ∨ t = (iri, pred, obj) := by
  unfold overwriteTriple Graph.set at h
  split at h
  · rcases Graph.mem_add_iff.mp h with h' | h'
    · exact Or.inl (List.mem_of_mem_filter h')
    · exact Or.inr h'
  · exact Graph.mem_add_iff.mp h

theorem foldl_mem_mono {α : Type} {step : Graph → α → Graph}
    (hstep : ∀ g a t, t ∈ g → t ∈ step g a) :
    ∀ (l : List α) (g : Graph) (t : Triple), t ∈ g → t ∈ l.foldl step g := by
  intro l
  induction l with
  | nil => intro g t h; exact h
  | cons a l ih => intro g t h; exact ih _ _ (hstep _ _ _ h)

theorem foldl_mem_elim {α : Type} {step : Graph → α → Graph}
    {P : Triple → Prop}
    (hstep : ∀ g a t, t ∈ step g a → t ∈ g ∨ P t) :
    ∀ (l : List α) (g : Graph) (t : Triple), t ∈ l.foldl step g → t ∈ g ∨ P t := by
  intro l
  induction l with
  | nil => intro g t h; exact Or.inl h
  | cons a l ih =>
      intro g t h
      rcases ih _ _ h with h' | h'
      · exact hstep _ _ _ h'
      · exact Or.inr h'

/-! ## Reduction lemmas: what each concrete `add_properties` call does -/

theorem writeDeviceNetwork_eq (iri : RDFTerm) {n : Nat} (hn : n ≠ 0)
    (g : Graph) :
    writeDeviceNetwork iri n g = Graph.add g (devOnNetworkTriple iri n) := by
  have hp : bacnetNS "device-on-network" ∉ edgeTypeValues := by decide
  simp [writeDeviceNetwork, bacnetNodeAddProps, baseAddProps,
    deviceNodeComponents, Component.addProps, BACnetEdgeType.value,
    devOnNetworkTriple, overwriteTriple, hp, hn]

theorem writeDeviceNetwork_zero (iri : RDFTerm) (g : Graph) :
    writeDeviceNetwork iri 0 g = g := by
  simp [writeDeviceNetwork, bacnetNodeAddProps, baseAddProps,
    deviceNodeComponents, Component.addProps]

theorem writeDeviceSubnet_eq (iri : RDFTerm) (s : String) (g : Graph) :
    writeDeviceSubnet iri s g = Graph.add g (devOnSubnetTriple iri s) := by
  have hp : bacnetNS "device-on-subnet" ∉ edgeTypeValues := by decide
  simp [writeDeviceSubnet, bacnetNodeAddProps, baseAddProps,
    deviceNodeComponents, Component.addProps, BACnetEdgeType.value,
    devOnSubnetTriple, overwriteTriple, hp]

theorem writeBdtEntry_eq (iri target : RDFTerm) (g : Graph) :
    writeBdtEntry iri target g = Graph.add g (bdtEntryTriple iri target) := by
  have hp : bacnetNS "bdt-entry" ∉ edgeTypeValues := by decide
  simp [writeBdtEntry, bacnetNodeAddProps, baseAddProps,
    bbmdNodeComponents, Component.addProps, BACnetEdgeType.value,
    bdtEntryTriple, overwriteTriple, hp]

theorem writeBbmdSubnet_eq (iri : RDFTerm) (s : String) (g : Graph) :
    writeBbmdSubnet iri s g = Graph.add g (bbmdDomainTriple iri s) := by
  have hp : bacnetNS "bbmd-broadcast-domain" ∉ edgeTypeValues := by decide
  simp [writeBbmdSubnet, bacnetNodeAddProps, baseAddProps,
    bbmdNodeComponents, Component.addProps, BACnetEdgeType.value,
    bbmdDomainTriple, overwriteTriple, hp]

/-- `scanner_node.add_properties(device_iri=...)` on the scanner's
`DeviceNode` writes nothing: neither of the Device components reads the
`device_iri` keyword. -/
theorem scannerAttach_eq (iri target : RDFTerm) (g : Graph) :
    bacnetNodeAddProps deviceNodeComponents iri { device_iri := some target } g
      = g := by
  simp [bacnetNodeAddProps, baseAddProps, deviceNodeComponents,
    Component.addProps]

theorem bacnetNodeInit_eq (iri : RDFTerm) (ty : String) (g : Graph) :
    bacnetNodeInit iri ty g = Graph.add g (iri, rdfType, bacnetNSterm ty) := by
  have hp : rdfType ∉ edgeTypeValues := by decide
  simp only [bacnetNodeInit, overwriteTriple_eq_add hp]
  exact Graph.add_of_mem (Graph.mem_add_self g _)

theorem mem_writeDeviceNetwork_of_mem (iri : RDFTerm) (g : Graph) (n : Nat)
    {t : Triple} (h : t ∈ g) : t ∈ writeDeviceNetwork iri n g := by
  match n with
  | 0 => rw [writeDeviceNetwork_zero]; exact h
  | m + 1 =>
      rw [writeDeviceNetwork_eq iri (Nat.succ_ne_zero m)]
      exact Graph.mem_add_of_mem _ h

theorem mem_writeDeviceNetwork_elim {iri : RDFTerm} {g : Graph} {n : Nat}
    {t : Triple} (h : t ∈ writeDeviceNetwork iri n g) : t ∈ g ∨ t.1 = iri := by
  match n with
  | 0 => rw [writeDeviceNetwork_zero] at h; exact Or.inl h
  | m + 1 =>
      rw [writeDeviceNetwork_eq iri (Nat.succ_ne_zero m)] at h
      rcases Graph.mem_add_iff.mp h with h' | h'
      · exact Or.inl h'
      · exact Or.inr (by rw [h']; rfl)

theorem mem_writeDeviceSubnet_elim {iri : RDFTerm} {g : Graph} {s : String}
    {t : Triple} (h : t ∈ writeDeviceSubnet iri s g) : t ∈ g ∨ t.1 = iri := by
  rw [writeDeviceSubnet_eq] at h
  rcases Graph.mem_add_iff.mp h with h' | h'
  · exact Or.inl h'
  · exact Or.inr (by rw [h']; rfl)

/-- The router's announced-network loop in `get_router_networks`: every
nonzero announced network keeps its `device-on-network` triple through
the whole fold. -/
theorem netsFold_mem {iri : RDFTerm} {net : Nat} (hnet : net ≠ 0) :
    ∀ (nets : List Nat) (g : Graph), net ∈ nets →
      devOnNetworkTriple iri net ∈
        nets.foldl (fun g n => writeDeviceNetwork iri n g) g := by
  intro nets
  induction nets with
  | nil => intro g h; cases h
  | cons a l ih =>
      intro g h
      rcases List.mem_cons.mp h with rfl | hl
      · have h1 : devOnNetworkTriple iri net ∈ writeDeviceNetwork iri net g := by
          rw [writeDeviceNetwork_eq iri hnet]
          exact Graph.mem_add_self _ _
        exact foldl_mem_mono (fun g n t h => mem_writeDeviceNetwork_of_mem iri g n h) l _ _ h1
      · exact ih _ hl

/-- The subnet-matching fold and the final unassociated check of
`routerStep` never remove a triple. -/
theorem mem_routerStep_of_mem_netsFold {subnets : List Subnet}
    {scannerIri : RDFTerm} {addrStr : String} {ip : Nat} {nets : List Nat}
    {g : Graph} {t : Triple}
    (h : t ∈ nets.foldl
      (fun g n =>
        bacnetNodeAddProps routerNodeComponents
          (bacnetURI ("router/" ++ addrStr)) { network_id := some n } g)
      (bacnetNodeInit (bacnetURI ("router/" ++ addrStr)) "Router" g)) :
    t ∈ routerStep subnets scannerIri addrStr ip nets g := by
  unfold routerStep
  have hsub : ∀ (g' : Graph) (s : Subnet) (u : Triple), u ∈ g' →
      u ∈ (if ipInSubnet ip s then
            bacnetNodeAddProps routerNodeComponents
              (bacnetURI ("router/" ++ addrStr))
              { subnet := some (subnetStr s) } g'
          else g') := by
    intro g' s u hu
    split
    · show u ∈ writeDeviceSubnet (bacnetURI ("router/" ++ addrStr)) (subnetStr s) g'
      rw [writeDeviceSubnet_eq]
      exact Graph.mem_add_of_mem _ hu
    · exact hu
  have h3 := foldl_mem_mono hsub subnets _ _ h
  split
  · show t ∈ bacnetNodeAddProps deviceNodeComponents scannerIri
      { device_iri := some (bacnetURI ("router/" ++ addrStr)) } _
    rw [scannerAttach_eq]
    exact h3
  · exact h3

/-- Every triple a `routerStep` adds has the router node as its subject. -/
theorem mem_routerStep_elim {subnets : List Subnet} {scannerIri : RDFTerm}
    {addrStr : String} {ip : Nat} {nets : List Nat} {g : Graph} {t : Triple}
    (h : t ∈ routerStep subnets scannerIri addrStr ip nets g) :
    t ∈ g ∨ t.1 = bacnetURI ("router/" ++ addrStr) := by
  unfold routerStep at h
  have h3 : t ∈ List.foldl
      (fun g s =>
        if ipInSubnet ip s then
          bacnetNodeAddProps routerNodeComponents
            (bacnetURI ("router/" ++ addrStr))
            { subnet := some (subnetStr s) } g
        else g)
      (List.foldl
        (fun g n =>
          bacnetNodeAddProps routerNodeComponents
            (bacnetURI ("router/" ++ addrStr)) { network_id := some n } g)
        (bacnetNodeInit (bacnetURI ("router/" ++ addrStr)) "Router" g) nets)
      subnets := by
    split at h
    · rw [show bacnetNodeAddProps deviceNodeComponents scannerIri
          { device_iri := some (bacnetURI ("router/" ++ addrStr)) } _ = _ from
          scannerAttach_eq scannerIri _ _] at h
      exact h
    · exact h
  have h2 := foldl_mem_elim (P := fun u => u.1 = bacnetURI ("router/" ++ addrStr))
    (by
      intro g' s u hu
      split at hu
      · rcases mem_writeDeviceSubnet_elim hu with h' | h'
        · exact Or.inl h'
        · exact Or.inr h'
      · exact Or.inl hu) subnets _ _ h3
  rcases h2 with h2 | h2
  · have h1 := foldl_mem_elim (P := fun u => u.1 = bacnetURI ("router/" ++ addrStr))
      (by
        intro g' n u hu
        exact mem_writeDeviceNetwork_elim hu) nets _ _ h2
    rcases h1 with h1 | h1
    · rw [bacnetNodeInit_eq] at h1
      rcases Graph.mem_add_iff.mp h1 with h' | h'
      · exact Or.inl h'
      · exact Or.inr (by rw [h'])
    · exact Or.inr h1
  · exact Or.inr h2

/-! ## Claims -/

/-- **C1.** For every node and every multi-valued relation kind
(`device-on-network`, `device-on-subnet`, the router's announced-network
relation, `bdt-entry`, `bbmd-broadcast-domain`), writing the relation
twice with two different targets leaves both (node, relation, target)
entries in the graph, and writing the identical triple twice is
idempotent; in particular, a router announcing several reachable networks
in one response gets one relation per announced network, none overwriting
another. -/
theorem relation_writes_append :
    (∀ (iri : RDFTerm) (g : Graph) (n1 n2 : Nat), n1 ≠ 0 → n2 ≠ 0 →
        devOnNetworkTriple iri n1 ∈
            writeDeviceNetwork iri n2 (writeDeviceNetwork iri n1 g) ∧
        devOnNetworkTriple iri n2 ∈
            writeDeviceNetwork iri n2 (writeDeviceNetwork iri n1 g) ∧
        writeDeviceNetwork iri n1 (writeDeviceNetwork iri n1 g) =
            writeDeviceNetwork iri n1 g) ∧
    (∀ (iri : RDFTerm) (g : Graph) (s1 s2 : String),
        devOnSubnetTriple iri s1 ∈
            writeDeviceSubnet iri s2 (writeDeviceSubnet iri s1 g) ∧
        devOnSubnetTriple iri s2 ∈
            writeDeviceSubnet iri s2 (writeDeviceSubnet iri s1 g) ∧
        writeDeviceSubnet iri s1 (writeDeviceSubnet iri s1 g) =
            writeDeviceSubnet iri s1 g) ∧
    (∀ (iri t1 t2 : RDFTerm) (g : Graph),
        bdtEntryTriple iri t1 ∈ writeBdtEntry iri t2 (writeBdtEntry iri t1 g) ∧
        bdtEntryTriple iri t2 ∈ writeBdtEntry iri t2 (writeBdtEntry iri t1 g) ∧
        writeBdtEntry iri t1 (writeBdtEntry iri t1 g) = writeBdtEntry iri t1 g) ∧
    (∀ (iri : RDFTerm) (g : Graph) (s1 s2 : String),
        bbmdDomainTriple iri s1 ∈
            writeBbmdSubnet iri s2 (writeBbmdSubnet iri s1 g) ∧
        bbmdDomainTriple iri s2 ∈
            writeBbmdSubnet iri s2 (writeBbmdSubnet iri s1 g) ∧
        writeBbmdSubnet iri s1 (writeBbmdSubnet iri s1 g) =
            writeBbmdSubnet iri s1 g) ∧
    (∀ (subnets : List Subnet) (scannerIri : RDFTerm) (addrStr : String)
        (ip : Nat) (nets : List Nat) (g : Graph) (net : Nat),
        net ∈ nets → net ≠ 0 →
        devOnNetworkTriple (bacnetURI ("router/" ++ addrStr)) net ∈
          routerStep subnets scannerIri addrStr ip nets g) := by
  refine ⟨?_, ?_, ?_, ?_, ?_⟩
  · intro iri g n1 n2 h1 h2
    simp only [writeDeviceNetwork_eq iri h1, writeDeviceNetwork_eq iri h2]
    exact ⟨Graph.mem_add_of_mem _ (Graph.mem_add_self _ _),
      Graph.mem_add_self _ _,
      Graph.add_of_mem (Graph.mem_add_self _ _)⟩
  · intro iri g s1 s2
    simp only [writeDeviceSubnet_eq]
    exact ⟨Graph.mem_add_of_mem _ (Graph.mem_add_self _ _),
      Graph.mem_add_self _ _,
      Graph.add_of_mem (Graph.mem_add_self _ _)⟩
  · intro iri t1 t2 g
    simp only [writeBdtEntry_eq]
    exact ⟨Graph.mem_add_of_mem _ (Graph.mem_add_self _ _),
      Graph.mem_add_self _ _,
      Graph.add_of_mem (Graph.mem_add_self _ _)⟩
  · intro iri g s1 s2
    simp only [writeBbmdSubnet_eq]
    exact ⟨Graph.mem_add_of_mem _ (Graph.mem_add_self _ _),
      Graph.mem_add_self _ _,
      Graph.add_of_mem (Graph.mem_add_self _ _)⟩
  · intro subnets scannerIri addrStr ip nets g net hmem hnet
    exact mem_routerStep_of_mem_netsFold (netsFold_mem hnet nets _ hmem)

/-- Witness for **C1** at concrete inputs. -/
theorem relation_writes_append_witness :
    (devOnNetworkTriple (bacnetURI "7") 1 ∈
        writeDeviceNetwork (bacnetURI "7") 2
          (writeDeviceNetwork (bacnetURI "7") 1 [])) ∧
    (devOnNetworkTriple (bacnetURI "7") 2 ∈
        writeDeviceNetwork (bacnetURI "7") 2
          (writeDeviceNetwork (bacnetURI "7") 1 [])) ∧
    (devOnNetworkTriple (bacnetURI ("router/" ++ "10.0.0.1")) 5 ∈
        routerStep [] (bacnetURI "Grasshopper") "10.0.0.1" 167772161 [5, 6] []) :=
  ⟨(relation_writes_append.1 (bacnetURI "7") [] 1 2 (by decide) (by decide)).1,
   (relation_writes_append.1 (bacnetURI "7") [] 1 2 (by decide) (by decide)).2.1,
   relation_writes_append.2.2.2.2 [] (bacnetURI "Grasshopper") "10.0.0.1"
     167772161 [5, 6] [] 5 (by decide) (by decide)⟩

/-- **C2 (code bug).** The spec and `overwrite_triple`'s own docstring say
common-property writes overwrite, but the guard
`str(predicate) in BACnetEdgeType._value2member_map_` compares a full IRI
against bare enum values and never matches, so every write takes the
`graph.add` branch: writing `device-instance` twice with two different
values keeps both triples. -/
theorem device_instance_second_write_keeps_first :
    (bacnetURI "7", bacnetNS "device-instance", RDFTerm.litNat 1) ∈
        bacnetNodeAddProps deviceNodeComponents (bacnetURI "7")
          { device_identifier := some 2 }
          (bacnetNodeAddProps deviceNodeComponents (bacnetURI "7")
            { device_identifier := some 1 } []) ∧
    (bacnetURI "7", bacnetNS "device-instance", RDFTerm.litNat 2) ∈
        bacnetNodeAddProps deviceNodeComponents (bacnetURI "7")
          { device_identifier := some 2 }
          (bacnetNodeAddProps deviceNodeComponents (bacnetURI "7")
            { device_identifier := some 1 } []) := by
  decide

/-- **C6 (code bug).** The unassociated-router branch of
`get_router_networks` calls `scanner_node.add_properties(device_iri=...)`,
but the scanner node is a `DeviceNode` whose components ignore the
`device_iri` keyword, so no triple at all is written under the scanner's
self-node: the call is the identity on the graph, and every triple a
`routerStep` adds has the router as its subject. -/
theorem unassociated_router_no_triple :
    (∀ (scannerIri target : RDFTerm) (g : Graph),
        bacnetNodeAddProps deviceNodeComponents scannerIri
          { device_iri := some target } g = g) ∧
    (∀ (subnets : List Subnet) (scannerIri : RDFTerm) (addrStr : String)
        (ip : Nat) (nets : List Nat) (g : Graph) (t : Triple),
        t ∈ routerStep subnets scannerIri addrStr ip nets g →
        t ∈ g ∨ t.1 = bacnetURI ("router/" ++ addrStr)) :=
  ⟨fun scannerIri target g => scannerAttach_eq scannerIri target g,
   fun _ _ _ _ _ _ _ h => mem_routerStep_elim h⟩

/-- Witness for **C6** at concrete inputs. -/
theorem unassociated_router_no_triple_witness :
    ((bacnetURI ("router/" ++ "10.0.0.1"), rdfType, bacnetNSterm "Router") ∈ ([] : Graph) ∨
      (bacnetURI ("router/" ++ "10.0.0.1"), rdfType,
        bacnetNSterm "Router").1 = bacnetURI ("router/" ++ "10.0.0.1")) :=
  unassociated_router_no_triple.2 [] (bacnetURI "Grasshopper") "10.0.0.1"
    167772161 [] []
    (bacnetURI ("router/" ++ "10.0.0.1"), rdfType, bacnetNSterm "Router")
    (by decide)

/-- **C10.** `add_properties` with a zero `device_identifier`, `vendor_id`
and `network_id` adds none of the corresponding triples (the Python `if
value:` guards are false at `0`): with a nonempty label, the only triple
added is the label. -/
theorem zero_properties_skipped (iri : RDFTerm) (l : String) (g : Graph)
    (hl : l ≠ "") :
    bacnetNodeAddProps deviceNodeComponents iri
        { label := some l, device_identifier := some 0, vendor_id := some 0,
          network_id := some 0 } g
      = Graph.add g (iri, rdfsLabel, RDFTerm.litStr l) := by
  have hp : rdfsLabel ∉ edgeTypeValues := by decide
  simp [bacnetNodeAddProps, baseAddProps, deviceNodeComponents,
    Component.addProps, overwriteTriple, hp, hl]

/-- Witness for **C10** at a concrete input: a device discovered with
instance number 0, vendor id 0 and network number 0 gets only its label
triple. -/
theorem zero_properties_skipped_witness :
    bacnetNodeAddProps deviceNodeComponents (bacnetURI "0")
        { label := some "bacnet://0", device_identifier := some 0,
          vendor_id := some 0, network_id := some 0 } []
      = Graph.add [] (bacnetURI "0", rdfsLabel, RDFTerm.litStr "bacnet://0") :=
  zero_properties_skipped (bacnetURI "0") "bacnet://0" [] (by decide)

/-! ## Window generation lemmas (C3, C4) -/

theorem knownEndOffset_le (g : Graph) (f : Nat) :
    ∀ (r c track : Nat), knownEndOffset g f track c r ≤ r := by
  intro r
  induction r with
  | zero => intro c track; exact Nat.le_refl 0
  | succ rr ih =>
      intro c track
      have h1 := ih (c + 1) (track + 1)
      have h2 := ih (c + 1) track
      simp only [knownEndOffset]
      split <;> split <;> omega

/-- With no known device in the window and a positive full step, the inner
loop of `get_known_device_end_range` runs to `end_pos`. -/
theorem knownEndOffset_of_no_device (g : Graph) (f : Nat) :
    ∀ (r c track : Nat), track < f →
      (∀ j, j < r → hasNodeAt g (c + j) = false) →
      knownEndOffset g f track c r = r := by
  intro r
  induction r with
  | zero => intro c track _ _; rfl
  | succ rr ih =>
      intro c track ht hnone
      have h0 : hasNodeAt g c = false := by simpa using hnone 0 (Nat.succ_pos rr)
      have ht2 : ¬ f ≤ track := Nat.not_le.mpr ht
      have hrec := ih (c + 1) track ht
        (fun j hj => by
          have := hnone (j + 1) (by omega)
          rwa [show c + (j + 1) = c + 1 + j by omega] at this)
      simp [knownEndOffset, h0, ht2, hrec]
      omega

/-- With at least `f - track` known devices ahead, the inner loop stops
strictly inside the window, at the position where the count reaches `f`,
and that position holds a known device. -/
theorem knownEndOffset_of_dense (g : Graph) (f : Nat) :
    ∀ (r c track : Nat), track < f → f ≤ track + cntDev g c r →
      knownEndOffset g f track c r < r ∧
      hasNodeAt g (c + knownEndOffset g f track c r) = true ∧
      track + cntDev g c (knownEndOffset g f track c r + 1) = f := by
  intro r
  induction r with
  | zero =>
      intro c track ht hcnt
      exfalso
      simp [cntDev] at hcnt
      omega
  | succ rr ih =>
      intro c track ht hcnt
      by_cases h0 : hasNodeAt g c = true
      · by_cases hf2 : f ≤ track + 1
        · have hoff : knownEndOffset g f track c (rr + 1) = 0 := by
            simp [knownEndOffset, h0, hf2]
          refine ⟨by omega, ?_, ?_⟩
          · rw [hoff]; simpa using h0
          · rw [hoff]
            simp [cntDev, h0]
            omega
        · have hoff : knownEndOffset g f track c (rr + 1) =
              1 + knownEndOffset g f (track + 1) (c + 1) rr := by
            simp [knownEndOffset, h0, hf2]
          have hstep : cntDev g c (rr + 1) = 1 + cntDev g (c + 1) rr := by
            simp [cntDev, h0]
          have hrec := ih (c + 1) (track + 1) (by omega) (by omega)
          refine ⟨by omega, ?_, ?_⟩
          · rw [hoff,
              show c + (1 + knownEndOffset g f (track + 1) (c + 1) rr) =
                c + 1 + knownEndOffset g f (track + 1) (c + 1) rr by omega]
            exact hrec.2.1
          · rw [hoff,
              show 1 + knownEndOffset g f (track + 1) (c + 1) rr + 1 =
                knownEndOffset g f (track + 1) (c + 1) rr + 1 + 1 by omega,
              show cntDev g c (knownEndOffset g f (track + 1) (c + 1) rr + 1 + 1) =
                (if hasNodeAt g c then 1 else 0) +
                  cntDev g (c + 1) (knownEndOffset g f (track + 1) (c + 1) rr + 1)
                from rfl]
            simp only [h0, if_true]
            have := hrec.2.2
            omega
      · have h0f : hasNodeAt g c = false := by simpa using h0
        have ht2 : ¬ f ≤ track := Nat.not_le.mpr ht
        have hoff : knownEndOffset g f track c (rr + 1) =
            1 + knownEndOffset g f track (c + 1) rr := by
          simp [knownEndOffset, h0f, ht2]
        have hstep : cntDev g c (rr + 1) = cntDev g (c + 1) rr := by
          simp [cntDev, h0f]
        have hrec := ih (c + 1) track ht (by omega)
        refine ⟨by omega, ?_, ?_⟩
        · rw [hoff,
            show c + (1 + knownEndOffset g f track (c + 1) rr) =
              c + 1 + knownEndOffset g f track (c + 1) rr by omega]
          exact hrec.2.1
        · rw [hoff,
            show 1 + knownEndOffset g f track (c + 1) rr + 1 =
              knownEndOffset g f track (c + 1) rr + 1 + 1 by omega,
            show cntDev g c (knownEndOffset g f track (c + 1) rr + 1 + 1) =
              (if hasNodeAt g c then 1 else 0) +
                cntDev g (c + 1) (knownEndOffset g f track (c + 1) rr + 1)
              from rfl]
          simp only [h0f, Bool.false_eq_true, if_false]
          have := hrec.2.2
          omega

theorem windowsAux_of_gt (g : Graph) (e f high : Nat) :
    ∀ (fuel lower : Nat), high < lower →
      windowsAux g e f high lower fuel = [] := by
  intro fuel lower h
  cases fuel with
  | zero => rfl
  | succ k => simp [windowsAux, Nat.not_le.mpr h]

/-- Any sufficient iteration budget makes the window loop tile
`[lower, high]` exactly. -/
theorem windowsAux_tile (pg : Graph) (e f high : Nat) :
    ∀ (fuel lower : Nat), lower ≤ high → high + 1 - lower ≤ fuel →
      tilesB lower high (windowsAux pg e f high lower fuel) = true := by
  intro fuel
  induction fuel with
  | zero => intro lower h1 h2; omega
  | succ k ih =>
      intro lower h1 h2
      have hle : lower ≤ getKnownDeviceEndRange pg e f lower := by
        simp only [getKnownDeviceEndRange]
        omega
      have hlu : lower ≤ min (getKnownDeviceEndRange pg e f lower) high := by
        omega
      have huh : min (getKnownDeviceEndRange pg e f lower) high ≤ high :=
        Nat.min_le_right _ _
      simp only [windowsAux, if_pos h1, tilesB, Bool.and_eq_true, beq_self_eq_true,
        decide_eq_true_eq, true_and]
      refine ⟨⟨hlu, huh⟩, ?_⟩
      by_cases hc : min (getKnownDeviceEndRange pg e f lower) high + 1 ≤ high
      · exact ih _ hc (by omega)
      · have hu2 : min (getKnownDeviceEndRange pg e f lower) high = high := by omega
        rw [hu2, windowsAux_of_gt pg e f high k (high + 1) (by omega)]
        simp [tilesB]

/-- **C3.** For `low_limit ≤ high_limit` and positive step sizes, the
Who-Is windows generated by `get_device_objects` tile `[low, high]`
exactly: the first window starts at `low`, each next window starts one
past the previous window's end, no window exceeds `high`, and the last
window's end equals `high`. -/
theorem whois_windows_tile (pg : Graph) (e f low high : Nat)
    (_he : 0 < e) (_hf : 0 < f) (hlh : low ≤ high) :
    tilesB low high (scanWindows pg e f low high) = true :=
  windowsAux_tile pg e f high (high + 1 - low) low hlh (Nat.le_refl _)

/-- Witness for **C3** at concrete inputs. -/
theorem whois_windows_tile_witness :
    tilesB 0 25 (scanWindows [] 10 2 0 25) = true :=
  whois_windows_tile [] 10 2 0 25 (by decide) (by decide) (by decide)

/-- **C4.** For a window starting at `x`: with zero known devices in
`[x, x + emptyStep)` the computed (clamped) window end is
`min (x + emptyStep) high`; with at least `fullStep` known devices in that
range the unclamped end is strictly less than `x + emptyStep`, lands on a
known device, and counts exactly `fullStep` known devices in `[x, end]`. -/
theorem window_end_density (pg : Graph) (e f x high : Nat) :
    (0 < f → (∀ i, x ≤ i → i < x + e → hasNodeAt pg i = false) →
        min (getKnownDeviceEndRange pg e f x) high = min (x + e) high) ∧
    (0 < f → f ≤ cntDev pg x e →
        getKnownDeviceEndRange pg e f x < x + e ∧
        hasNodeAt pg (getKnownDeviceEndRange pg e f x) = true ∧
        cntDev pg x (getKnownDeviceEndRange pg e f x - x + 1) = f) := by
  constructor
  · intro hf hnone
    have h := knownEndOffset_of_no_device pg f e x 0 hf
      (fun j hj => hnone (x + j) (Nat.le_add_right _ _) (by omega))
    simp [getKnownDeviceEndRange, h]
  · intro hf hcnt
    have h := knownEndOffset_of_dense pg f e x 0 hf (by omega)
    have hsub : getKnownDeviceEndRange pg e f x - x = knownEndOffset pg f 0 x e := by
      simp [getKnownDeviceEndRange]
    refine ⟨?_, ?_, ?_⟩
    · have := h.1
      simp only [getKnownDeviceEndRange]
      omega
    · simpa [getKnownDeviceEndRange] using h.2.1
    · rw [hsub]
      have := h.2.2
      omega

/-- Witness for **C4** at concrete inputs: an empty prior graph gives the
full window; a prior graph with devices at 3, 4, 5, 6 and full step 2
truncates the window at instance 4. -/
theorem window_end_density_witness :
    (min (getKnownDeviceEndRange [] 10 2 0) 25 = min (0 + 10) 25) ∧
    (getKnownDeviceEndRange
        [(bacnetURI "3", rdfType, bacnetNSterm "Device"),
         (bacnetURI "4", rdfType, bacnetNSterm "Device"),
         (bacnetURI "5", rdfType, bacnetNSterm "Device"),
         (bacnetURI "6", rdfType, bacnetNSterm "Device")] 10 2 0 < 0 + 10 ∧
      hasNodeAt
        [(bacnetURI "3", rdfType, bacnetNSterm "Device"),
         (bacnetURI "4", rdfType, bacnetNSterm "Device"),
         (bacnetURI "5", rdfType, bacnetNSterm "Device"),
         (bacnetURI "6", rdfType, bacnetNSterm "Device")]
        (getKnownDeviceEndRange
          [(bacnetURI "3", rdfType, bacnetNSterm "Device"),
           (bacnetURI "4", rdfType, bacnetNSterm "Device"),
           (bacnetURI "5", rdfType, bacnetNSterm "Device"),
           (bacnetURI "6", rdfType, bacnetNSterm "Device")] 10 2 0) = true ∧
      cntDev
        [(bacnetURI "3", rdfType, bacnetNSterm "Device"),
         (bacnetURI "4", rdfType, bacnetNSterm "Device"),
         (bacnetURI "5", rdfType, bacnetNSterm "Device"),
         (bacnetURI "6", rdfType, bacnetNSterm "Device")] 0
        (getKnownDeviceEndRange
          [(bacnetURI "3", rdfType, bacnetNSterm "Device"),
           (bacnetURI "4", rdfType, bacnetNSterm "Device"),
           (bacnetURI "5", rdfType, bacnetNSterm "Device"),
           (bacnetURI "6", rdfType, bacnetNSterm "Device")] 10 2 0 - 0 + 1) = 2) :=
  ⟨(window_end_density [] 10 2 0 25).1 (by decide) (fun i _ _ => rfl),
   (window_end_density
      [(bacnetURI "3", rdfType, bacnetNSterm "Device"),
       (bacnetURI "4", rdfType, bacnetNSterm "Device"),
       (bacnetURI "5", rdfType, bacnetNSterm "Device"),
       (bacnetURI "6", rdfType, bacnetNSterm "Device")] 10 2 0 25).2
     (by decide) (by decide)⟩

/-! ## Subnet association (C7) -/

/-- When some subnet of the current list already contains `ip`,
`add_subnet_to_device` leaves the subnet list unchanged. -/
theorem addSubnet_unchanged_of_match {subnets : List Subnet} {ip : Nat}
    (h : ∃ s ∈ subnets, ipInSubnet ip s = true)
    (comps : List Component) (iri : RDFTerm) (g : Graph) :
    (addSubnetToDevice comps iri g subnets ip).2.2 = subnets := by
  have hsome : (subnets.find? (fun s => ipInSubnet ip s)).isSome := by
    rw [List.find?_isSome]
    obtain ⟨s, hs, hip⟩ := h
    exact ⟨s, hs, hip⟩
  obtain ⟨s, hfind⟩ := Option.isSome_iff_exists.mp hsome
  simp [addSubnetToDevice, hfind]

/-- **C7.** The subnet list only grows during a scan: a lookup either
reuses an existing entry (list unchanged) or appends the synthesized /24
around the address, which contains the address; and once a /24 has been
synthesized for an address, any later lookup of an address inside it
reuses the entry instead of creating a duplicate. -/
theorem subnet_list_monotone :
    (∀ ip : Nat, ipInSubnet ip (synth24 ip) = true) ∧
    (∀ (comps : List Component) (iri : RDFTerm) (g : Graph)
        (subnets : List Subnet) (ip : Nat),
        (addSubnetToDevice comps iri g subnets ip).2.2 = subnets ∨
        (addSubnetToDevice comps iri g subnets ip).2.2 =
          subnets ++ [synth24 ip]) ∧
    (∀ (comps : List Component) (iri : RDFTerm) (g : Graph)
        (subnets : List Subnet) (ip : Nat),
        (∃ s ∈ subnets, ipInSubnet ip s = true) →
        (addSubnetToDevice comps iri g subnets ip).2.2 = subnets) ∧
    (∀ (comps1 comps2 : List Component) (iri1 iri2 : RDFTerm)
        (g1 g2 : Graph) (subnets : List Subnet) (ip ip2 : Nat),
        (∀ s ∈ subnets, ipInSubnet ip s = false) →
        ipInSubnet ip2 (synth24 ip) = true →
        (addSubnetToDevice comps1 iri1 g1 subnets ip).2.2 =
            subnets ++ [synth24 ip] ∧
        (addSubnetToDevice comps2 iri2 g2 (subnets ++ [synth24 ip]) ip2).2.2 =
            subnets ++ [synth24 ip]) := by
  refine ⟨?_, ?_, ?_, ?_⟩
  · intro ip
    have h : ip / 256 * 256 / 256 = ip / 256 := by omega
    simp [ipInSubnet, synth24, h]
  · intro comps iri g subnets ip
    cases hfind : subnets.find? (fun s => ipInSubnet ip s) with
    | none => right; simp [addSubnetToDevice, hfind]
    | some s => left; simp [addSubnetToDevice, hfind]
  · intro comps iri g subnets ip h
    exact addSubnet_unchanged_of_match h comps iri g
  · intro comps1 comps2 iri1 iri2 g1 g2 subnets ip ip2 hnone hip2
    have hfind : subnets.find? (fun s => ipInSubnet ip s) = none := by
      rw [List.find?_eq_none]
      intro s hs
      simp [hnone s hs]
    refine ⟨by simp [addSubnetToDevice, hfind], ?_⟩
    exact addSubnet_unchanged_of_match
      ⟨synth24 ip, by simp, hip2⟩ comps2 iri2 g2

/-- Witness for **C7**: the spec scenario — 192.168.50.9 synthesizes
`192.168.50.0/24`, and 192.168.50.20 later reuses it. -/
theorem subnet_list_monotone_witness :
    (addSubnetToDevice deviceNodeComponents (bacnetURI "1") [] [] 3232248329).2.2
        = [] ++ [synth24 3232248329] ∧
    (addSubnetToDevice deviceNodeComponents (bacnetURI "2") []
        ([] ++ [synth24 3232248329]) 3232248340).2.2
        = [] ++ [synth24 3232248329] :=
  subnet_list_monotone.2.2.2 deviceNodeComponents deviceNodeComponents
    (bacnetURI "1") (bacnetURI "2") [] [] [] 3232248329 3232248340
    (by simp) (by decide)

/-! ## Probe correlation registry (C8) and FDT reads (C5) -/

/-- **C8.** A correlated BDT/FDT probe registers exactly one pending slot
under the destination before the request goes out; a timeout or error
yields `none` rather than an exception; whichever way the probe
completes, the destination's registry entry is gone when the call
returns, and no other address's entry is disturbed. -/
theorem probe_registry_lifecycle (r : Registry) (dest slot : Nat)
    (o : Outcome) :
    (regSet r dest slot) dest = some slot ∧
    ((o = .timeout ∨ o = .error) →
        (createAndAwaitRequest r dest slot o).1 = none) ∧
    (createAndAwaitRequest r dest slot o).2 dest = none ∧
    (∀ k, k ≠ dest → (createAndAwaitRequest r dest slot o).2 k = r k) := by
  refine ⟨by simp [regSet], ?_, ?_, ?_⟩
  · rintro (rfl | rfl) <;> simp [createAndAwaitRequest]
  · cases o <;> simp [createAndAwaitRequest, regSet, regDel]
  · intro k hk
    cases o <;> simp [createAndAwaitRequest, regSet, regDel, hk]

/-- Witness for **C8** at a concrete input. -/
theorem probe_registry_lifecycle_witness :
    ((createAndAwaitRequest (fun _ => none) 1 7 .timeout).1 = none) ∧
    ((createAndAwaitRequest (fun _ => none) 1 7 .timeout).2 1 = none) ∧
    ((createAndAwaitRequest (fun _ => none) 1 7 .timeout).2 0 =
        (fun _ => none : Registry) 0) :=
  ⟨(probe_registry_lifecycle (fun _ => none) 1 7 .timeout).2.1 (Or.inl rfl),
   (probe_registry_lifecycle (fun _ => none) 1 7 .timeout).2.2.1,
   (probe_registry_lifecycle (fun _ => none) 1 7 .timeout).2.2.2 0 (by decide)⟩

/-- **C5 (code bug).** `read_bbmd_fdt` stores its result keyed by the
destination address and swallows failures, but the request it sends is
`ReadBroadcastDistributionTable` — it calls
`ase.read_broadcast_distribution_table` although its own docstring, its
name, and the spec call for a Read-Foreign-Device-Table request
(`read_foreign_device_table` exists and is never called). -/
theorem read_bbmd_fdt_requests_bdt :
    (∀ (st : BVLLState) (fdtStore : Registry) (dest slot : Nat)
        (o : Outcome),
        (readBbmdFdt st fdtStore dest slot o).1 =
          RequestKind.readBroadcastDistributionTable) ∧
    (∀ (st : BVLLState) (fdtStore : Registry) (dest slot v : Nat),
        (readBbmdFdt st fdtStore dest slot (.success v)).2.1 dest = some v) ∧
    (∀ (st : BVLLState) (fdtStore : Registry) (dest slot : Nat),
        (readBbmdFdt st fdtStore dest slot .timeout).2.1 = fdtStore) ∧
    (∀ (st : BVLLState) (fdtStore : Registry) (dest slot : Nat),
        (readBbmdFdt st fdtStore dest slot .error).2.1 = fdtStore) := by
  refine ⟨?_, ?_, ?_, ?_⟩
  · intro st fdtStore dest slot o
    cases o <;> simp [readBbmdFdt, readBdtTable, createAndAwaitRequest]
  · intro st fdtStore dest slot v
    simp [readBbmdFdt, readBdtTable, createAndAwaitRequest, regSet]
  · intro st fdtStore dest slot
    simp [readBbmdFdt, readBdtTable, createAndAwaitRequest]
  · intro st fdtStore dest slot
    simp [readBbmdFdt, readBdtTable, createAndAwaitRequest]

/-! ## Diff worker error handling (C9) -/

/-- **C9.** When either input snapshot of a diff task is missing or fails
to parse, the task's processing yields a reported error and no combined
graph, and the worker loop records that outcome and continues with the
remaining queue unchanged. -/
theorem diff_parse_failure_reported (env : DiffEnv) (t : DiffTask)
    (rest : List (Option DiffTask))
    (h : env.files t.ttl1 = .missing ∨ env.files t.ttl1 = .unparsable ∨
         env.files t.ttl2 = .missing ∨ env.files t.ttl2 = .unparsable) :
    (∃ msg, processOneTask env t = .error msg) ∧
    processCompareRdfQueue env (some t :: rest) =
      (t, processOneTask env t) :: processCompareRdfQueue env rest := by
  refine ⟨?_, rfl⟩
  cases h1 : env.files t.ttl1 <;> cases h2 : env.files t.ttl2 <;>
    simp_all [processOneTask]

/-- Witness for **C9** at a concrete input: the first snapshot file is
missing. -/
theorem diff_parse_failure_reported_witness :
    (∃ msg, processOneTask
        ⟨fun n => if n = "a.ttl" then FileState.missing else FileState.parsed []⟩
        ⟨"a.ttl", "b.ttl"⟩ = .error msg) ∧
    processCompareRdfQueue
        ⟨fun n => if n = "a.ttl" then FileState.missing else FileState.parsed []⟩
        (some ⟨"a.ttl", "b.ttl"⟩ :: []) =
      (⟨"a.ttl", "b.ttl"⟩, processOneTask
        ⟨fun n => if n = "a.ttl" then FileState.missing else FileState.parsed []⟩
        ⟨"a.ttl", "b.ttl"⟩) :: processCompareRdfQueue
        ⟨fun n => if n = "a.ttl" then FileState.missing else FileState.parsed []⟩
        [] :=
  diff_parse_failure_reported
    ⟨fun n => if n = "a.ttl" then FileState.missing else FileState.parsed []⟩
    ⟨"a.ttl", "b.ttl"⟩ [] (Or.inl (by simp))

end Grasshopper
